import Mathlib

/-!
Shallow embedding of the `image_link_card` service (Flask app) in Lean 4,
used to check the natural-language specification against the code.

Python strings are modelled as Lean `String`, bytes as `List Nat`,
`datetime` values by the fields the code actually inspects, database
tables as Lean lists, and the ORM session as explicit state passing.
-/

namespace ImageLinkCard

/-- Model of the Python slice `s[:n]`. -/
def strTake (s : String) (n : Nat) : String := String.mk (s.data.take n)

/-- Model of the Python substring test `needle in hay`. -/
def strContains (hay needle : String) : Bool :=
  hay.data.tails.any (fun t => needle.data.isPrefixOf t)

/-- Model of Python `s.lower()`, applied characterwise. -/
def strLower (s : String) : String := String.mk (s.data.map Char.toLower)

/-! ## app/utils/bot_detection.py -/

/-- The fixed list `BOT_USER_AGENTS` from `app/utils/bot_detection.py`. -/
def BOT_USER_AGENTS : List String := [
  "twitterbot",
  "facebookexternalhit",
  "linkedinbot",
  "slackbot",
  "telegrambot",
  "whatsapp",
  "discordbot",
  "pinterest",
  "tumblr",
  "redditbot",
  "embedly",
  "quora link preview",
  "outbrain",
  "rogerbot",
  "showyoubot",
  "slurp",
  "baiduspider",
  "bingbot",
  "googlebot",
  "applebot",
  "yandexbot",
  "duckduckbot"]

/-- `is_bot` from `app/utils/bot_detection.py`: empty user agent is not a
bot; otherwise lowercase the user agent and test each bot substring. -/
def is_bot (user_agent : String) : Bool :=
  if user_agent = "" then false
  else BOT_USER_AGENTS.any (fun bot => strContains (strLower user_agent) bot)

/-! ## app/models/user.py and app/config.py -/

/-- The fields of a Python `datetime` value that the quota logic inspects. -/
structure PyDateTime where
  year : Nat
  month : Nat
deriving DecidableEq

/-- The `User` model fields used by quota handling and API authentication. -/
structure User where
  id : String
  email : String
  tier : String
  email_verified : Bool
  monthly_card_count : Nat
  card_count_reset_at : Option PyDateTime
deriving DecidableEq

/-- `Config.TIER_LIMITS` from `app/config.py`. -/
def TIER_LIMITS : List (String × Nat) := [("free", 5), ("core", 50), ("premium", 500)]

/-- `User.get_monthly_limit`: look the tier up in `TIER_LIMITS`, default 5. -/
def get_monthly_limit (u : User) : Nat := (TIER_LIMITS.lookup u.tier).getD 5

/-- `User._maybe_reset_monthly_count`: reset the count and stamp when the
stored timestamp is absent or its year or month differs from now. -/
def maybe_reset_monthly_count (u : User) (now : PyDateTime) : User :=
  match u.card_count_reset_at with
  | none => { u with monthly_card_count := 0, card_count_reset_at := some now }
  | some t =>
    if ¬ t.year = now.year ∨ ¬ t.month = now.month then
      { u with monthly_card_count := 0, card_count_reset_at := some now }
    else u

/-- `User.can_create_card`: maybe reset, then compare count to the tier
limit. The Python method mutates `self`; the updated user is returned. -/
def can_create_card (u : User) (now : PyDateTime) : Bool × User :=
  let u' := maybe_reset_monthly_count u now
  (decide (u'.monthly_card_count < get_monthly_limit u'), u')

/-- `User.increment_card_count`: maybe reset, then add one. -/
def increment_card_count (u : User) (now : PyDateTime) : User :=
  let u' := maybe_reset_monthly_count u now
  { u' with monthly_card_count := u'.monthly_card_count + 1 }

/-- Spec-side predicate, phrased after the claim wording: the stored reset
timestamp is absent or its (year, month) pair differs from the current
UTC (year, month). -/
def newMonthSpec (r : Option PyDateTime) (now : PyDateTime) : Bool :=
  match r with
  | none => true
  | some t => decide (¬ (t.year, t.month) = (now.year, now.month))

/-! ## app/models/card.py and app/blueprints/cards/routes.py -/

/-- The `Card` model fields used by the routes under verification. -/
structure Card where
  id : String
  user_id : String
  slug : String
  title : String
  description : Option String
  destination_url : String
  card_type : String
  image_original_key : String
  image_processed_key : String
  view_count : Nat
deriving DecidableEq

/-- `Card.increment_views`: add one to the view count. -/
def increment_views (c : Card) : Card := { c with view_count := c.view_count + 1 }

/-- The observable outcomes of `serve_card`. -/
inductive CardResponse where
  | notFound404 : CardResponse
  | metaHtml : Card → CardResponse
  | redirect : Nat → String → CardResponse
deriving DecidableEq

/-- Committing the mutation of the first row whose slug matches: the ORM
session holds the single object returned by the slug query. -/
def updateFirst (cards : List Card) (slug : String) (f : Card → Card) : List Card :=
  match cards with
  | [] => []
  | c :: rest => if c.slug = slug then f c :: rest else c :: updateFirst rest slug f

/-- `serve_card` from `app/blueprints/cards/routes.py`: look the slug up,
404 when absent, meta HTML for bots, otherwise count the view and issue a
302 redirect to the destination URL. -/
def serve_card (cards : List Card) (slug : String) (user_agent : String) :
    CardResponse × List Card :=
  match cards.find? (fun c => decide (c.slug = slug)) with
  | none => (.notFound404, cards)
  | some card =>
    if is_bot user_agent then (.metaHtml card, cards)
    else (.redirect 302 card.destination_url, updateFirst cards slug increment_views)

/-! ## app/services/image_processor.py -/

/-- `DIMENSIONS`: target size per card type. -/
def DIMENSIONS : List (String × Nat × Nat) :=
  [("summary", (144, 144)), ("summary_large_image", (1200, 628))]

/-- `ALLOWED_CONTENT_TYPES`. -/
def ALLOWED_CONTENT_TYPES : List String :=
  ["image/jpeg", "image/png", "image/gif", "image/webp"]

/-- `MAX_SIZE`: maximum upload size in bytes (5 MB). -/
def MAX_SIZE : Nat := 5 * 1024 * 1024

/-- `ImageProcessor.validate`: reject a content type outside the allowed
set, then reject data longer than `MAX_SIZE`; otherwise return with the
input untouched (the method only reads its arguments). -/
def validate (file_data : List Nat) (content_type : String) : Except String Unit :=
  if ¬ content_type ∈ ALLOWED_CONTENT_TYPES then
    .error ("Invalid file type: " ++ content_type)
  else if file_data.length > MAX_SIZE then
    .error "File too large"
  else .ok ()

/-- The geometry computed by `ImageProcessor._resize_and_crop`, together
with the size of the crop result; PIL `Image.crop` always returns a box of
exactly the requested size. -/
structure ProcessedDims where
  resized_w : Nat
  resized_h : Nat
  left : Nat
  top : Nat
  out_w : Nat
  out_h : Nat
deriving DecidableEq

/-- `ImageProcessor._resize_and_crop` on an image of size w by h. The
Python float ratios are modelled exactly by rationals, and `int` on these
nonnegative values is the floor. -/
def resize_and_crop (w h tw th : Nat) : ProcessedDims :=
  let target_ratio : ℚ := (tw : ℚ) / (th : ℚ)
  let img_ratio : ℚ := (w : ℚ) / (h : ℚ)
  let new_w : Nat :=
    if img_ratio > target_ratio then (⌊(w : ℚ) * ((th : ℚ) / (h : ℚ))⌋).toNat else tw
  let new_h : Nat :=
    if img_ratio > target_ratio then th else (⌊(h : ℚ) * ((tw : ℚ) / (w : ℚ))⌋).toNat
  { resized_w := new_w, resized_h := new_h,
    left := (new_w - tw) / 2, top := (new_h - th) / 2,
    out_w := tw, out_h := th }

/-- `ImageProcessor.process`, restricted to the geometry of a successfully
decoded image of size w by h: an unknown card type raises
`ImageProcessingError`, a known one is resized and center-cropped to the
target size. Mode conversion and PNG encoding do not change the size and
are not modelled. -/
def process (w h : Nat) (card_type : String) : Except String ProcessedDims :=
  match DIMENSIONS.lookup card_type with
  | none => .error ("Invalid card type: " ++ card_type)
  | some (tw, th) => .ok (resize_and_crop w h tw th)

/-! ## app/models/api_key.py and app/blueprints/api/v1/auth.py -/

/-- The `APIKey` model fields used by creation and authentication. The
werkzeug hasher and checker are passed in as functions. -/
structure APIKeyRec where
  user_id : String
  key_hash : String
  key_prefix : String
  name : String
  revoked_at : Option PyDateTime
deriving DecidableEq

/-- `APIKey.generate_key`: the marker `sk_` followed by a random token;
the value of `secrets.token_urlsafe(32)` is the `token` argument. -/
def generate_key (token : String) : String := "sk_" ++ token

/-- `APIKey.create`: generate the raw key, store its hash and its first 8
characters, and return the record together with the raw key. -/
def APIKey.create (gen : String → String) (user_id nm token : String) :
    APIKeyRec × String :=
  let raw_key := generate_key token
  ({ user_id := user_id, key_hash := gen raw_key, key_prefix := strTake raw_key 8,
     name := nm, revoked_at := none }, raw_key)

/-- `APIKey.verify_key`: check a raw key against the stored hash. -/
def verify_key (chk : String → String → Bool) (k : APIKeyRec) (raw_key : String) : Bool :=
  chk k.key_hash raw_key

/-- The outcomes of the `require_api_key` decorator. -/
inductive AuthResult where
  | missingKey401 : AuthResult
  | invalidKey401 : AuthResult
  | emailUnverified403 : AuthResult
  | ownerMissing : AuthResult
  | accept : User → APIKeyRec → AuthResult
deriving DecidableEq

/-- The filter of the prefix query in `require_api_key`: stored prefix
equal to the computed prefix and `revoked_at` null. -/
def keyMatches (pfx : String) (r : APIKeyRec) : Bool :=
  decide ( APIKeyRec.key_prefix r = pfx ∧ r.revoked_at = none)

/-- `require_api_key` from `app/blueprints/api/v1/auth.py`: take the first
non-revoked record matching the 8-character prefix (the whole key when it
is shorter), verify the full key against that record's hash, then require
the owner's verified email. `ownerMissing` is the unreachable case of a
dangling foreign key. -/
def require_api_key (chk : String → String → Bool) (keys : List APIKeyRec)
    (users : List User) (header : Option String) : AuthResult :=
  match header with
  | none => .missingKey401
  | some api_key =>
    if api_key = "" then .missingKey401
    else
      let pfx := if 8 ≤ api_key.length then strTake api_key 8 else api_key
      match keys.find? (keyMatches pfx) with
      | none => .invalidKey401
      | some key_record =>
        if verify_key chk key_record api_key then
          match users.find? (fun u => decide (u.id = key_record.user_id)) with
          | none => .ownerMissing
          | some owner =>
            if owner.email_verified then .accept owner key_record
            else .emailUnverified403
        else .invalidKey401

/-- A concrete stand-in for the werkzeug hasher used by witnesses only: it
marks its output with a method marker, as werkzeug hash strings are. -/
def hashDemo (pw : String) : String := "scrypt$" ++ pw

/-- The checker matching `hashDemo`, for witnesses only. -/
def checkDemo (h : String) (pw : String) : Bool := h == hashDemo pw

/-- A non-revoked stored key whose prefix collides with `demoKeyB`. -/
def demoKeyA : APIKeyRec :=
  { user_id := "u1", key_hash := "stored-hash-A", key_prefix := "sk_abcde",
    name := "first", revoked_at := none }

/-- A non-revoked stored key that verifies the raw key `sk_abcdefgh`. -/
def demoKeyB : APIKeyRec :=
  { user_id := "u2", key_hash := hashDemo "sk_abcdefgh", key_prefix := "sk_abcde",
    name := "second", revoked_at := none }

/-! ## app/services/storage.py -/

/-- Stored objects, newest binding of a key first. -/
abbrev ObjectStore := List (String × List Nat)

/-- `upload` of both backends: a single write of the object. -/
def store_upload (st : ObjectStore) (key : String) (data : List Nat) : ObjectStore :=
  (key, data) :: st

/-- `download` of both backends: a single read of the current object; no
cache is consulted or filled. -/
def store_download (st : ObjectStore) (key : String) : Option (List Nat) :=
  st.lookup key

/-- `LocalStorage.delete`: `os.remove` raises an `OSError` when the file
is absent or the OS call fails, which the method catches and turns into
`False`; otherwise the file is removed and `True` returned. -/
def local_delete (st : ObjectStore) (key : String) (osFail : Bool) :
    Bool × ObjectStore :=
  if osFail then (false, st)
  else
    match st.lookup key with
    | none => (false, st)
    | some _ => (true, st.filter (fun e => decide (¬ e.1 = key)))

/-- `R2Storage.delete`: S3 `delete_object` succeeds also for a missing
key; a transport error is caught and turned into `False`. -/
def r2_delete (st : ObjectStore) (key : String) (netFail : Bool) :
    Bool × ObjectStore :=
  if netFail then (false, st)
  else (true, st.filter (fun e => decide (¬ e.1 = key)))

/-- The Flask configuration keys read by `get_storage` and by the R2
client construction. -/
structure FlaskConfig where
  STORAGE_BACKEND : Option String
  LOCAL_STORAGE_PATH : Option String
  BASE_URL : Option String
  R2_ACCOUNT_ID : String
  R2_ACCESS_KEY_ID : String
  R2_SECRET_ACCESS_KEY : String
  R2_BUCKET_NAME : String
  R2_PUBLIC_URL : String
deriving DecidableEq

/-- The boto3 client configuration built in `R2Storage.__init__`. -/
structure R2Client where
  endpoint_url : String
  aws_access_key_id : String
  aws_secret_access_key : String
  signature_version : String
  retry_max_attempts : Nat
  retry_mode : String
deriving DecidableEq

/-- The two storage backends as constructed values: local path and base
URL, or bucket, public URL and boto3 client. -/
inductive StorageChoice where
  | localS : String → String → StorageChoice
  | r2S : String → String → R2Client → StorageChoice
deriving DecidableEq

/-- Model of Python `s.rstrip('/')`. -/
def rstripSlash (s : String) : String :=
  String.mk (s.data.reverse.dropWhile (fun c => c == '/')).reverse

/-- `R2Storage.__init__`: strip the trailing slash of the public URL and
build the boto3 client with signature s3v4 and the fixed retry policy of
at most 3 attempts in adaptive mode. -/
def mkR2Storage (account_id access_key secret_key bucket_name public_url : String) :
    StorageChoice :=
  .r2S bucket_name (rstripSlash public_url)
    { endpoint_url := "https://" ++ account_id ++ ".r2.cloudflarestorage.com",
      aws_access_key_id := access_key, aws_secret_access_key := secret_key,
      signature_version := "s3v4", retry_max_attempts := 3, retry_mode := "adaptive" }

/-- `get_storage` from `app/services/storage.py`. -/
def get_storage (cfg : FlaskConfig) : Except String StorageChoice :=
  let backend := cfg.STORAGE_BACKEND.getD "local"
  if backend = "local" then
    .ok (.localS (cfg.LOCAL_STORAGE_PATH.getD "uploads")
      (cfg.BASE_URL.getD "http://localhost:5000"))
  else if backend = "r2" then
    .ok (mkR2Storage cfg.R2_ACCOUNT_ID cfg.R2_ACCESS_KEY_ID cfg.R2_SECRET_ACCESS_KEY
      cfg.R2_BUCKET_NAME cfg.R2_PUBLIC_URL)
  else .error ("Unknown storage backend: " ++ backend)

/-- A configuration selecting the local backend, for witnesses. -/
def demoCfgLocal : FlaskConfig :=
  { STORAGE_BACKEND := some "local", LOCAL_STORAGE_PATH := some "uploads",
    BASE_URL := some "http://localhost:5000", R2_ACCOUNT_ID := "acc",
    R2_ACCESS_KEY_ID := "ak", R2_SECRET_ACCESS_KEY := "sk",
    R2_BUCKET_NAME := "social-cards", R2_PUBLIC_URL := "https://img.example.com/" }

/-- A configuration with an unknown backend name, for witnesses. -/
def demoCfgBad : FlaskConfig :=
  { demoCfgLocal with STORAGE_BACKEND := some "s3" }

/-! ## app/blueprints/api/v1/cards.py -/

/-- The outcomes of the API `delete_card` endpoint. -/
inductive DeleteResult where
  | notFound404 : DeleteResult
  | deleted200 : String → DeleteResult
deriving DecidableEq

/-- `delete_card` from `app/blueprints/api/v1/cards.py`, over an abstract
backend delete function (either `local_delete` or `r2_delete` with its
failure oracle): find the card by id and owner, 404 when absent; call
delete on both stored objects ignoring their boolean results, remove the
database row, and return 200. -/
def delete_card (delFn : ObjectStore → String → Bool → Bool × ObjectStore)
    (cards : List Card) (storage : ObjectStore) (user_id card_id : String)
    (f1 f2 : Bool) : DeleteResult × List Card × ObjectStore :=
  match cards.find? (fun c => decide (c.id = card_id ∧ c.user_id = user_id)) with
  | none => (.notFound404, cards, storage)
  | some card =>
    let r1 := delFn storage card.image_original_key f1
    let r2 := delFn r1.2 card.image_processed_key f2
    (.deleted200 "Card deleted successfully",
      cards.eraseP (fun c => decide (c.id = card.id)), r2.2)

/-- An uploaded file in the multipart create form. -/
structure FileUpload where
  filename : String
  content_type : String
  data : List Nat
deriving DecidableEq

/-- The multipart form of the create endpoint. -/
structure CreateForm where
  image : Option FileUpload
  title : String
  description : String
  destination_url : String
  card_type : Option String
deriving DecidableEq

/-- The outcomes of the API `create_card` endpoint: the 403 carries the
current count and the limit reported in the JSON body. -/
inductive CreateResult where
  | limit403 : Nat → Nat → CreateResult
  | badRequest400 : String → CreateResult
  | uploadFailed500 : CreateResult
  | created201 : Card → CreateResult
deriving DecidableEq

/-- `create_card` from `app/blueprints/api/v1/cards.py`. `decode` stands
for `PIL.Image.open` (the decoded size when the bytes are an image),
`slug` for the generated nanoid, `card_id` for the generated uuid,
`processed` for the bytes of the processed PNG, and `upload_fail` for a
storage exception during the two uploads. -/
def create_card (user : User) (now : PyDateTime) (form : CreateForm)
    (decode : List Nat → Option (Nat × Nat)) (slug card_id : String)
    (processed : List Nat) (upload_fail : Bool)
    (cards : List Card) (storage : ObjectStore) :
    CreateResult × User × List Card × ObjectStore :=
  let cc := can_create_card user now
  let user' := cc.2
  if cc.1 = false then
    (.limit403 user'.monthly_card_count (get_monthly_limit user'), user', cards, storage)
  else
    match form.image with
    | none => (.badRequest400 "Missing image", user', cards, storage)
    | some img =>
      if img.filename = "" then (.badRequest400 "Empty image", user', cards, storage)
      else
        let title := form.title.trim
        if title = "" then (.badRequest400 "Missing title", user', cards, storage)
        else if 200 < title.length then
          (.badRequest400 "Title too long", user', cards, storage)
        else
          let destination_url := form.destination_url.trim
          if destination_url = "" then
            (.badRequest400 "Missing destination_url", user', cards, storage)
          else
            let description := form.description.trim
            if 500 < description.length then
              (.badRequest400 "Description too long", user', cards, storage)
            else
              let card_type := form.card_type.getD "summary_large_image"
              if ¬ (card_type = "summary" ∨ card_type = "summary_large_image") then
                (.badRequest400 "Invalid card_type", user', cards, storage)
              else
                let content_type :=
                  if img.content_type = "" then "application/octet-stream"
                  else img.content_type
                match validate img.data content_type with
                | .error e => (.badRequest400 e, user', cards, storage)
                | .ok _ =>
                  match decode img.data with
                  | none => (.badRequest400 "Failed to open image", user', cards, storage)
                  | some wh =>
                    match process wh.1 wh.2 card_type with
                    | .error e => (.badRequest400 e, user', cards, storage)
                    | .ok _ =>
                      let original_key :=
                        "originals/" ++ user.id ++ "/" ++ slug ++ ".original"
                      let processed_key := "processed/" ++ slug ++ ".png"
                      if upload_fail then (.uploadFailed500, user', cards, storage)
                      else
                        let storage' :=
                          store_upload (store_upload storage original_key img.data)
                            processed_key processed
                        let card : Card :=
                          { id := card_id, user_id := user.id, slug := slug,
                            title := title,
                            description :=
                              if description = "" then none else some description,
                            destination_url := destination_url, card_type := card_type,
                            image_original_key := original_key,
                            image_processed_key := processed_key, view_count := 0 }
                        let user'' := increment_card_count user' now
                        (.created201 card, user'', card :: cards, storage')

/-- A concrete stored card used by witnesses. -/
def sampleCard : Card :=
  { id := "11111111-1111-1111-1111-111111111111", user_id := "u1",
    slug := "abcdefghijklmnopqrstu", title := "Hello", description := none,
    destination_url := "https://example.com/page",
    card_type := "summary_large_image", image_original_key := "originals/u1/x.original",
    image_processed_key := "processed/x.png", view_count := 7 }

/-- A free-tier user at the monthly limit, for witnesses. -/
def demoUserFull : User :=
  { id := "u9", email := "q@example.com", tier := "free", email_verified := true,
    monthly_card_count := 5, card_count_reset_at := some { year := 2025, month := 10 } }

/-- An arbitrary create form, for witnesses. -/
def demoForm : CreateForm :=
  { image := none, title := "", description := "", destination_url := "",
    card_type := none }

end ImageLinkCard

namespace ImageLinkCard

/-- C3: bot detection is exactly a case-insensitive substring match against
the 22 fixed patterns, and the empty user agent is never a bot. -/
theorem is_bot_substring_match :
    ∀ ua : String,
      (is_bot ua = true ↔
        (¬ ua = "" ∧ ∃ b ∈ BOT_USER_AGENTS, strContains (strLower ua) b = true)) ∧
      BOT_USER_AGENTS.length = 22 ∧
      is_bot "" = false := by
  intro ua
  refine ⟨?_, by decide, by decide⟩
  unfold is_bot
  by_cases h : ua = ""
  · simp [h]
  · simp [h, List.any_eq_true]

/-- Decomposition of a successful slug lookup: the list splits around the
first matching row and `updateFirst` rewrites exactly that row. -/
theorem find?_updateFirst (cards : List Card) (slug : String) (card : Card)
    (h : cards.find? (fun c => decide (c.slug = slug)) = some card) :
    ∃ l₁ l₂, cards = l₁ ++ card :: l₂ ∧ (∀ c ∈ l₁, ¬ c.slug = slug) ∧
      ∀ f, updateFirst cards slug f = l₁ ++ f card :: l₂ := by
  induction cards with
  | nil => simp at h
  | cons a rest ih =>
    by_cases ha : a.slug = slug
    · rw [List.find?_cons_of_pos _ (by simp [ha])] at h
      obtain rfl : a = card := by simpa using h
      exact ⟨[], rest, rfl, by simp, fun f => by simp [updateFirst, ha]⟩
    · rw [List.find?_cons_of_neg _ (by simp [ha])] at h
      obtain ⟨l₁, l₂, hsplit, hns, hupd⟩ := ih h
      refine ⟨a :: l₁, l₂, by simp [hsplit], ?_, fun f => by simp [updateFirst, ha, hupd f]⟩
      intro c hc
      rcases List.mem_cons.mp hc with rfl | hc
      · exact ha
      · exact hns c hc

/-- C1: serving `/c/slug` aborts 404 when no card has the slug; for a bot
user agent it renders the meta page and leaves every card unchanged; for a
non-bot it increments exactly the matched card's view count by one, leaves
its other fields and all other cards unchanged, and redirects 302 to the
card's destination URL. -/
theorem serve_card_dispatch (cards : List Card) (slug ua : String) :
    (cards.find? (fun c => decide (c.slug = slug)) = none →
      serve_card cards slug ua = (.notFound404, cards)) ∧
    (∀ card, cards.find? (fun c => decide (c.slug = slug)) = some card →
      (is_bot ua = true → serve_card cards slug ua = (.metaHtml card, cards)) ∧
      (is_bot ua = false →
        ∃ l₁ l₂, cards = l₁ ++ card :: l₂ ∧ (∀ c ∈ l₁, ¬ c.slug = slug) ∧
          serve_card cards slug ua =
            (.redirect 302 card.destination_url,
              l₁ ++ { card with view_count := card.view_count + 1 } :: l₂))) := by
  constructor
  · intro h
    simp [serve_card, h]
  · intro card h
    constructor
    · intro hb
      simp [serve_card, h, hb]
    · intro hb
      obtain ⟨l₁, l₂, hsplit, hns, hupd⟩ := find?_updateFirst cards slug card h
      refine ⟨l₁, l₂, hsplit, hns, ?_⟩
      simp [serve_card, h, hb, hupd increment_views, increment_views]

/-- Witness for C1: one stored card, served to a crawler and to a browser. -/
theorem serve_card_dispatch_witness :
    serve_card [sampleCard] "abcdefghijklmnopqrstu" "Twitterbot/1.0" =
      (.metaHtml sampleCard, [sampleCard]) ∧
    (∃ l₁ l₂, ([sampleCard] : List Card) = l₁ ++ sampleCard :: l₂ ∧
      (∀ c ∈ l₁, ¬ c.slug = "abcdefghijklmnopqrstu") ∧
      serve_card [sampleCard] "abcdefghijklmnopqrstu" "Mozilla/5.0" =
        (.redirect 302 sampleCard.destination_url,
          l₁ ++ { sampleCard with view_count := sampleCard.view_count + 1 } :: l₂)) :=
  ⟨((serve_card_dispatch [sampleCard] "abcdefghijklmnopqrstu" "Twitterbot/1.0").2
      sampleCard (by decide)).1 (by decide),
    ((serve_card_dispatch [sampleCard] "abcdefghijklmnopqrstu" "Mozilla/5.0").2
      sampleCard (by decide)).2 (by decide)⟩

/-- C4: before both `can_create_card` and `increment_card_count` the count
is reset to 0 and the stamp set to now exactly when the stored timestamp
is absent or its (year, month) pair differs from the current one; when the
pair is equal the count and the stamp are left unchanged. -/
theorem monthly_quota_reset (u : User) (now : PyDateTime) :
    (newMonthSpec u.card_count_reset_at now = true →
      maybe_reset_monthly_count u now =
        { u with monthly_card_count := 0, card_count_reset_at := some now }) ∧
    (newMonthSpec u.card_count_reset_at now = false →
      maybe_reset_monthly_count u now = u) ∧
    (can_create_card u now).2 = maybe_reset_monthly_count u now ∧
    increment_card_count u now =
      { maybe_reset_monthly_count u now with
          monthly_card_count := (maybe_reset_monthly_count u now).monthly_card_count + 1 } := by
  refine ⟨?_, ?_, rfl, rfl⟩
  · intro hs
    rcases h : u.card_count_reset_at with _ | t
    · simp [maybe_reset_monthly_count, h]
    · rw [h] at hs
      simp only [newMonthSpec, decide_eq_true_eq, Prod.mk.injEq, not_and] at hs
      have hc : ¬ t.year = now.year ∨ ¬ t.month = now.month := by tauto
      simp only [maybe_reset_monthly_count, h]
      rw [if_pos hc]
  · intro hs
    rcases h : u.card_count_reset_at with _ | t
    · rw [h] at hs
      simp [newMonthSpec] at hs
    · rw [h] at hs
      simp only [newMonthSpec, decide_eq_false_iff_not, Prod.mk.injEq, not_not] at hs
      simp only [maybe_reset_monthly_count, h]
      rw [if_neg (by tauto)]

/-- C10: `validate` raises exactly when the content type is outside the
four allowed MIME types or the data exceeds 5 * 1024 * 1024 bytes; within
both bounds (the 5 MiB boundary included) it returns successfully, and it
only reads its input. -/
theorem upload_validate_bounds (file_data : List Nat) (content_type : String) :
    ((∃ e, validate file_data content_type = .error e) ↔
      (¬ content_type ∈ ALLOWED_CONTENT_TYPES ∨ file_data.length > MAX_SIZE)) ∧
    (content_type ∈ ALLOWED_CONTENT_TYPES → file_data.length ≤ MAX_SIZE →
      validate file_data content_type = .ok ()) ∧
    (∀ ct : String, ct ∈ ALLOWED_CONTENT_TYPES ↔
      (ct = "image/jpeg" ∨ ct = "image/png" ∨ ct = "image/gif" ∨ ct = "image/webp")) ∧
    MAX_SIZE = 5 * 1024 * 1024 := by
  refine ⟨?_, ?_, ?_, rfl⟩
  · constructor
    · intro he
      by_cases h1 : content_type ∈ ALLOWED_CONTENT_TYPES
      · by_cases h2 : file_data.length > MAX_SIZE
        · exact Or.inr h2
        · exfalso
          rcases he with ⟨e, he⟩
          rw [validate.eq_def, if_neg (not_not_intro h1), if_neg h2] at he
          exact Except.noConfusion he
      · exact Or.inl h1
    · intro hcase
      rcases hcase with hc | hc
      · exact ⟨_, by rw [validate.eq_def, if_pos hc]⟩
      · by_cases h1 : content_type ∈ ALLOWED_CONTENT_TYPES
        · exact ⟨_, by rw [validate.eq_def, if_neg (not_not_intro h1), if_pos hc]⟩
        · exact ⟨_, by rw [validate.eq_def, if_pos h1]⟩
  · intro hm hl
    unfold validate
    rw [if_neg (not_not_intro hm), if_neg (by omega)]
  · intro ct
    simp [ALLOWED_CONTENT_TYPES]

/-- Witness for C10: a file of exactly 5 MiB with an allowed type passes. -/
theorem upload_validate_bounds_witness :
    validate (List.replicate (5 * 1024 * 1024) 0) "image/png" = .ok () :=
  (upload_validate_bounds _ _).2.1 (by decide)
    (by rw [List.length_replicate]; exact Nat.le.refl)

/-- Truncation of an exact rational product of naturals is natural
division: this is what Python `int` computes on these values. -/
theorem floor_mul_div_eq (a b c : ℕ) :
    (⌊(a : ℚ) * ((b : ℚ) / (c : ℚ))⌋).toNat = a * b / c := by
  rw [show (a : ℚ) * ((b : ℚ) / (c : ℚ)) = ((a * b : ℕ) : ℚ) / (c : ℚ) by push_cast; ring]
  rw [Int.floor_toNat, Nat.floor_div_eq_div]

/-- C5: `process` resizes by height and crops width when the image ratio
exceeds the target ratio, else resizes by width and crops height, then
center-crops at left = (new_w - target_w) / 2, top = (new_h - target_h) / 2
to exactly 144 by 144 for `summary` and 1200 by 628 for
`summary_large_image`; any other card type raises. -/
theorem image_process_geometry (w h : Nat) (ct : String) (hw : 0 < w) (hh : 0 < h) :
    (ct = "summary" → process w h ct = .ok (resize_and_crop w h 144 144)) ∧
    (ct = "summary_large_image" → process w h ct = .ok (resize_and_crop w h 1200 628)) ∧
    (¬ ct = "summary" → ¬ ct = "summary_large_image" →
      process w h ct = .error ("Invalid card type: " ++ ct)) ∧
    (∀ tw th : Nat, 0 < tw → 0 < th →
      ((resize_and_crop w h tw th).out_w = tw ∧ (resize_and_crop w h tw th).out_h = th) ∧
      ((w : ℚ) / h > (tw : ℚ) / th →
        (resize_and_crop w h tw th).resized_w = w * th / h ∧
        (resize_and_crop w h tw th).resized_h = th ∧
        tw ≤ w * th / h) ∧
      (¬ (w : ℚ) / h > (tw : ℚ) / th →
        (resize_and_crop w h tw th).resized_w = tw ∧
        (resize_and_crop w h tw th).resized_h = h * tw / w ∧
        th ≤ h * tw / w) ∧
      (resize_and_crop w h tw th).left = ((resize_and_crop w h tw th).resized_w - tw) / 2 ∧
      (resize_and_crop w h tw th).top = ((resize_and_crop w h tw th).resized_h - th) / 2) := by
  refine ⟨?_, ?_, ?_, ?_⟩
  · intro hct
    subst hct
    simp [process, DIMENSIONS, List.lookup]
  · intro hct
    subst hct
    simp [process, DIMENSIONS, List.lookup]
  · intro h1 h2
    have e1 : (ct == "summary") = false := beq_eq_false_iff_ne.mpr h1
    have e2 : (ct == "summary_large_image") = false := beq_eq_false_iff_ne.mpr h2
    simp [process, DIMENSIONS, List.lookup, e1, e2]
  · intro tw th htw hth
    refine ⟨⟨rfl, rfl⟩, ?_, ?_, rfl, rfl⟩
    · intro hr
      have h1 : (tw : ℚ) * h < w * th := by
        rw [gt_iff_lt, div_lt_div_iff₀ (by exact_mod_cast hth) (by exact_mod_cast hh)] at hr
        exact hr
      have h2 : tw * h ≤ w * th := le_of_lt (by exact_mod_cast h1)
      refine ⟨by simp [resize_and_crop, hr, floor_mul_div_eq],
        by simp [resize_and_crop, hr], (Nat.le_div_iff_mul_le hh).mpr h2⟩
    · intro hr
      have h1 : (w : ℚ) * th ≤ tw * h := by
        rw [gt_iff_lt, not_lt, div_le_div_iff₀ (by exact_mod_cast hh) (by exact_mod_cast hth)] at hr
        exact hr
      have h2 : th * w ≤ h * tw := by
        have h3 : w * th ≤ tw * h := by exact_mod_cast h1
        calc th * w = w * th := Nat.mul_comm th w
          _ ≤ tw * h := h3
          _ = h * tw := Nat.mul_comm tw h
      refine ⟨by simp [resize_and_crop, hr],
        by simp [resize_and_crop, hr, floor_mul_div_eq], (Nat.le_div_iff_mul_le hw).mpr h2⟩

/-- Witness for C5: a 1000 by 500 image processed for a large card. -/
theorem image_process_geometry_witness :
    process 1000 500 "summary_large_image" = .ok (resize_and_crop 1000 500 1200 628) ∧
    (resize_and_crop 1000 500 1200 628).out_w = 1200 ∧
    (resize_and_crop 1000 500 1200 628).out_h = 628 :=
  ⟨(image_process_geometry 1000 500 "summary_large_image" (by decide) (by decide)).2.1 rfl,
    (((image_process_geometry 1000 500 "summary_large_image" (by decide) (by decide)).2.2.2
        1200 628 (by decide) (by decide)).1).1,
    (((image_process_geometry 1000 500 "summary_large_image" (by decide) (by decide)).2.2.2
        1200 628 (by decide) (by decide)).1).2⟩

/-- String append acts as list append on the underlying characters. -/
theorem strData_append (s t : String) : (s ++ t).data = s.data ++ t.data := by
  cases s
  cases t
  rfl

/-- String length is the length of the underlying character list. -/
theorem strLength_data (s : String) : s.length = s.data.length := by
  cases s
  rfl

/-- C6: `APIKey.create` yields a record that verifies the returned raw key
and stores the raw key's first 8 characters as the lookup prefix, while no
stored field equals the raw key: werkzeug hash strings never equal their
input (hypothesis `hgen`), the prefix is strictly shorter than the key,
and the caller-chosen fields exist before the random key does. -/
theorem api_key_hashed_at_rest (gen : String → String) (chk : String → String → Bool)
    (user_id nm token : String)
    (hchk : ∀ pw, chk (gen pw) pw = true)
    (hgen : ∀ pw, ¬ gen pw = pw)
    (htok : 6 ≤ token.length)
    (hu : ¬ user_id = generate_key token)
    (hn : ¬ nm = generate_key token) :
    verify_key chk (APIKey.create gen user_id nm token).1
        (APIKey.create gen user_id nm token).2 = true ∧
    APIKeyRec.key_prefix (APIKey.create gen user_id nm token).1 =
      strTake (APIKey.create gen user_id nm token).2 8 ∧
    ¬ (APIKey.create gen user_id nm token).1.key_hash =
        (APIKey.create gen user_id nm token).2 ∧
    ¬ APIKeyRec.key_prefix (APIKey.create gen user_id nm token).1 =
        (APIKey.create gen user_id nm token).2 ∧
    ¬ (APIKey.create gen user_id nm token).1.user_id =
        (APIKey.create gen user_id nm token).2 ∧
    ¬ (APIKey.create gen user_id nm token).1.name =
        (APIKey.create gen user_id nm token).2 := by
  refine ⟨hchk _, rfl, hgen _, ?_, hu, hn⟩
  intro h
  have hdata : ((generate_key token).data.take 8).length = (generate_key token).data.length := by
    have h' := congrArg String.data h
    simpa [strTake, APIKey.create] using congrArg List.length h'
  have hle : ((generate_key token).data.take 8).length ≤ 8 := List.length_take_le _ _
  rw [hdata] at hle
  have hlen : (generate_key token).data.length = 3 + token.data.length := by
    simp [generate_key, strData_append]
    omega
  have htok' : 6 ≤ token.data.length := by
    rw [← strLength_data]
    exact htok
  omega

/-- Witness for C6 with the demo hasher and a concrete token. -/
theorem api_key_hashed_at_rest_witness :
    verify_key checkDemo (APIKey.create hashDemo "user-1" "ci" "0123456789abc").1
        (APIKey.create hashDemo "user-1" "ci" "0123456789abc").2 = true ∧
    ¬ (APIKey.create hashDemo "user-1" "ci" "0123456789abc").1.key_hash =
        (APIKey.create hashDemo "user-1" "ci" "0123456789abc").2 ∧
    APIKeyRec.key_prefix (APIKey.create hashDemo "user-1" "ci" "0123456789abc").1 =
      strTake (APIKey.create hashDemo "user-1" "ci" "0123456789abc").2 8 :=
  have h := api_key_hashed_at_rest hashDemo checkDemo "user-1" "ci" "0123456789abc"
    (fun pw => by simp [checkDemo])
    (fun pw hq => by
      have hl := congrArg String.length hq
      rw [hashDemo, strLength_data, strData_append, List.length_append,
        ← strLength_data, ← strLength_data] at hl
      have h7 : ("scrypt$" : String).length = 7 := by decide
      rw [h7] at hl
      omega)
    (by decide) (by decide) (by decide)
  ⟨h.1, h.2.2.1, h.2.1⟩

/-- C8: authentication resolves at most one record. With the prefix of the
supplied key computed as in the code (first 8 characters, or the whole key
when shorter), the request is accepted exactly when the first non-revoked
prefix-matching record verifies the full key and its owner's email is
verified; when that first record does not verify the key the request is
rejected 401, even if a later non-revoked record with the same prefix
would verify it. -/
theorem api_key_single_lookup (chk : String → String → Bool) (keys : List APIKeyRec)
    (users : List User) (api_key : String) (hne : ¬ api_key = "") :
    (∀ r owner,
      keys.find? (keyMatches (if 8 ≤ api_key.length then strTake api_key 8 else api_key)) =
        some r →
      users.find? (fun u => decide (u.id = r.user_id)) = some owner →
      (require_api_key chk keys users (some api_key) = .accept owner r ↔
        (chk r.key_hash api_key = true ∧ owner.email_verified = true))) ∧
    (keys.find? (keyMatches (if 8 ≤ api_key.length then strTake api_key 8 else api_key)) =
        none →
      require_api_key chk keys users (some api_key) = .invalidKey401) ∧
    (∀ r,
      keys.find? (keyMatches (if 8 ≤ api_key.length then strTake api_key 8 else api_key)) =
        some r →
      chk r.key_hash api_key = false →
      require_api_key chk keys users (some api_key) = .invalidKey401) := by
  refine ⟨?_, ?_, ?_⟩
  · intro r owner hfind howner
    by_cases hv : chk r.key_hash api_key = true
    · by_cases he : owner.email_verified = true
      · simp [require_api_key, hne, hfind, howner, verify_key, hv, he]
      · simp [require_api_key, hne, hfind, howner, verify_key, hv, he]
    · simp [require_api_key, hne, hfind, verify_key, hv]
  · intro hfind
    simp [require_api_key, hne, hfind]
  · intro r hfind hv
    simp [require_api_key, hne, hfind, verify_key, hv]

/-- Witness for C8: the supplied raw key verifies against the second
stored record, but the first record shares its 8-character prefix and is
returned first, so the request is rejected with 401. -/
theorem api_key_single_lookup_witness :
    require_api_key checkDemo [demoKeyA, demoKeyB] [] (some "sk_abcdefgh") = .invalidKey401 ∧
    checkDemo demoKeyB.key_hash "sk_abcdefgh" = true ∧
    demoKeyB.revoked_at = none ∧
    APIKeyRec.key_prefix demoKeyB =
      (if 8 ≤ ("sk_abcdefgh" : String).length then strTake "sk_abcdefgh" 8
        else "sk_abcdefgh") :=
  ⟨(api_key_single_lookup checkDemo [demoKeyA, demoKeyB] [] "sk_abcdefgh" (by decide)).2.2
      demoKeyA (by decide) (by decide),
    by decide, by decide, by decide⟩

/-- C7: `get_storage` returns the local-filesystem backend when
`STORAGE_BACKEND` is 'local' (also when it is unset), the R2 backend when
it is 'r2', and raises `ValueError` for any other value. The R2 client is
built once with a fixed bounded retry policy (3 attempts, adaptive mode,
a boto3 client setting, not an application retry loop), and both
backends' operations are single state accesses with no cache: a download
always returns the currently stored object. -/
theorem storage_backend_dispatch (cfg : FlaskConfig) :
    (cfg.STORAGE_BACKEND = some "local" ∨ cfg.STORAGE_BACKEND = none →
      get_storage cfg = .ok (.localS (cfg.LOCAL_STORAGE_PATH.getD "uploads")
        (cfg.BASE_URL.getD "http://localhost:5000"))) ∧
    (cfg.STORAGE_BACKEND = some "r2" →
      get_storage cfg = .ok (mkR2Storage cfg.R2_ACCOUNT_ID cfg.R2_ACCESS_KEY_ID
        cfg.R2_SECRET_ACCESS_KEY cfg.R2_BUCKET_NAME cfg.R2_PUBLIC_URL)) ∧
    (∀ b, cfg.STORAGE_BACKEND = some b → ¬ b = "local" → ¬ b = "r2" →
      get_storage cfg = .error ("Unknown storage backend: " ++ b)) ∧
    (∀ a b c d e, ∃ bk pu client, mkR2Storage a b c d e = .r2S bk pu client ∧
      client.retry_max_attempts = 3 ∧ client.retry_mode = "adaptive") ∧
    (∀ (st : ObjectStore) (key : String) (data : List Nat),
      store_download (store_upload st key data) key = some data ∧
      store_download st key = st.lookup key) := by
  refine ⟨?_, ?_, ?_, ?_, ?_⟩
  · rintro (h | h) <;> simp [get_storage, h]
  · intro h
    simp [get_storage, h]
  · intro b hb h1 h2
    simp [get_storage, hb, h1, h2]
  · intro a b c d e
    exact ⟨_, _, _, rfl, rfl, rfl⟩
  · intro st key data
    exact ⟨by simp [store_download, store_upload, List.lookup], rfl⟩

/-- Witness for C7: the two dispatch branches at concrete configurations. -/
theorem storage_backend_dispatch_witness :
    get_storage demoCfgLocal = .ok (.localS "uploads" "http://localhost:5000") ∧
    get_storage demoCfgBad = .error ("Unknown storage backend: " ++ "s3") :=
  ⟨(storage_backend_dispatch demoCfgLocal).1 (Or.inl rfl),
    (storage_backend_dispatch demoCfgBad).2.2.1 "s3" rfl (by decide) (by decide)⟩

/-- In a table whose ids are distinct, erasing a member row by its id
leaves no copy of that row. -/
theorem not_mem_eraseP_of_nodup (l : List Card) (c : Card)
    (hn : (l.map (fun x => x.id)).Nodup) (hmem : c ∈ l) :
    ¬ c ∈ l.eraseP (fun x => decide (x.id = c.id)) := by
  induction l with
  | nil => simp at hmem
  | cons a t ih =>
    rw [List.map_cons, List.nodup_cons] at hn
    by_cases ha : a.id = c.id
    · rw [List.eraseP_cons_of_pos (by simp [ha])]
      intro hc
      exact hn.1 (by rw [ha]; exact List.mem_map_of_mem _ hc)
    · rw [List.eraseP_cons_of_neg (by simp [ha])]
      intro hc
      rcases List.mem_cons.mp hc with rfl | hc'
      · exact ha rfl
      · rcases List.mem_cons.mp hmem with rfl | hmem'
        · exact ha rfl
        · exact ih hn.2 hmem' hc'

/-- C9: card deletion is not atomic across storage and database: whenever
the card is found for the authenticated owner, the endpoint returns 200
with 'Card deleted successfully' and removes the database row, for any
backend behaviour and failure pattern; both backends' delete returns
False instead of raising on failure, and when both deletes fail the image
objects are left in storage unchanged. -/
theorem delete_card_not_atomic (delFn : ObjectStore → String → Bool → Bool × ObjectStore)
    (cards : List Card) (storage : ObjectStore) (uid cid : String) (f1 f2 : Bool)
    (card : Card)
    (hfind : cards.find? (fun c => decide (c.id = cid ∧ c.user_id = uid)) = some card) :
    (delete_card delFn cards storage uid cid f1 f2).1 =
      .deleted200 "Card deleted successfully" ∧
    (delete_card delFn cards storage uid cid f1 f2).2.1 =
      cards.eraseP (fun c => decide (c.id = card.id)) ∧
    ((cards.map (fun c => c.id)).Nodup →
      ¬ card ∈ (delete_card delFn cards storage uid cid f1 f2).2.1) ∧
    (∀ (st : ObjectStore) (key : String),
      local_delete st key true = (false, st) ∧ r2_delete st key true = (false, st)) ∧
    (f1 = true → f2 = true →
      (delete_card local_delete cards storage uid cid f1 f2).2.2 = storage) := by
  refine ⟨?_, ?_, ?_, ?_, ?_⟩
  · simp only [delete_card, hfind]
  · simp only [delete_card, hfind]
  · intro hn
    simp only [delete_card, hfind]
    exact not_mem_eraseP_of_nodup cards card hn (List.mem_of_find?_eq_some hfind)
  · intro st key
    exact ⟨by simp [local_delete], by simp [r2_delete]⟩
  · intro h1 h2
    subst h1
    subst h2
    simp only [delete_card, hfind, local_delete]
    simp

/-- Witness for C9: both storage deletes fail, the row is still removed
and the response is still 200. -/
theorem delete_card_not_atomic_witness :
    (delete_card local_delete [sampleCard] [("processed/x.png", [1])] "u1"
        "11111111-1111-1111-1111-111111111111" true true).1 =
      .deleted200 "Card deleted successfully" ∧
    (delete_card local_delete [sampleCard] [("processed/x.png", [1])] "u1"
        "11111111-1111-1111-1111-111111111111" true true).2.2 =
      [("processed/x.png", [1])] :=
  ⟨(delete_card_not_atomic local_delete [sampleCard] [("processed/x.png", [1])] "u1"
      "11111111-1111-1111-1111-111111111111" true true sampleCard (by decide)).1,
    (delete_card_not_atomic local_delete [sampleCard] [("processed/x.png", [1])] "u1"
      "11111111-1111-1111-1111-111111111111" true true sampleCard (by decide)).2.2.2.2
      rfl rfl⟩

/-- The corridor of tier limits, spelled per tier with the default. -/
theorem get_monthly_limit_eq (u : User) :
    get_monthly_limit u = if u.tier = "free" then 5 else if u.tier = "core" then 50
      else if u.tier = "premium" then 500 else 5 := by
  have h := fun (s : String) => beq_iff_eq (a := u.tier) (b := s)
  simp only [get_monthly_limit, TIER_LIMITS, List.lookup]
  by_cases h1 : u.tier = "free"
  · simp [beq_iff_eq.mpr h1, h1]
  · rw [beq_eq_false_iff_ne.mpr h1, if_neg h1]
    by_cases h2 : u.tier = "core"
    · simp [beq_iff_eq.mpr h2, h2]
    · rw [beq_eq_false_iff_ne.mpr h2, if_neg h2]
      by_cases h3 : u.tier = "premium"
      · simp [beq_iff_eq.mpr h3, h3]
      · rw [beq_eq_false_iff_ne.mpr h3, if_neg h3]
        rfl

/-- Every tier limit is positive. -/
theorem get_monthly_limit_pos (u : User) : 0 < get_monthly_limit u := by
  rw [get_monthly_limit_eq]
  split_ifs <;> decide

/-- The reset never changes the tier. -/
theorem maybe_reset_tier (u : User) (now : PyDateTime) :
    (maybe_reset_monthly_count u now).tier = u.tier := by
  rcases h : u.card_count_reset_at with _ | t <;> simp [maybe_reset_monthly_count, h]
  split <;> rfl

/-- The reset either zeroes the count and stamps now, or changes nothing. -/
theorem maybe_reset_disj (u : User) (now : PyDateTime) :
    maybe_reset_monthly_count u now =
      { u with monthly_card_count := 0, card_count_reset_at := some now } ∨
    maybe_reset_monthly_count u now = u := by
  rcases h : u.card_count_reset_at with _ | t
  · left
    simp only [maybe_reset_monthly_count, h]
  · simp only [maybe_reset_monthly_count, h]
    by_cases hc : ¬ t.year = now.year ∨ ¬ t.month = now.month
    · rw [if_pos hc]
      exact Or.inl rfl
    · rw [if_neg hc]
      exact Or.inr rfl

/-- C2: creation is gated by the monthly tier limit: `can_create_card` is
the comparison of the (possibly reset) count against the tier limit (5
for free, 50 for core, 500 for premium, 5 for any unrecognized tier), and
when it is false the endpoint answers 403 carrying the user's current
count and limit and changes nothing: no card row is added, no object is
uploaded, and the user record (count included) is left as it was. -/
theorem tier_limit_enforced (u : User) (now : PyDateTime) (form : CreateForm)
    (decode : List Nat → Option (Nat × Nat)) (slug card_id : String)
    (processed : List Nat) (upload_fail : Bool)
    (cards : List Card) (storage : ObjectStore) :
    ((can_create_card u now).1 =
      decide ((maybe_reset_monthly_count u now).monthly_card_count <
        get_monthly_limit u)) ∧
    (get_monthly_limit u = if u.tier = "free" then 5 else if u.tier = "core" then 50
      else if u.tier = "premium" then 500 else 5) ∧
    ((can_create_card u now).1 = false →
      create_card u now form decode slug card_id processed upload_fail cards storage =
        (.limit403 u.monthly_card_count (get_monthly_limit u), u, cards, storage)) := by
  have htier : get_monthly_limit (maybe_reset_monthly_count u now) = get_monthly_limit u := by
    rw [get_monthly_limit_eq, get_monthly_limit_eq, maybe_reset_tier]
  refine ⟨?_, get_monthly_limit_eq u, ?_⟩
  · simp only [can_create_card, htier]
  · intro hcc
    have hid : maybe_reset_monthly_count u now = u := by
      rcases maybe_reset_disj u now with hd | hd
      · exfalso
        rw [can_create_card] at hcc
        simp only [hd] at hcc htier
        rw [decide_eq_false_iff_not, Nat.not_lt, Nat.le_zero] at hcc
        have := get_monthly_limit_pos u
        omega
      · exact hd
    have h2 : (can_create_card u now).2 = u := hid
    simp only [create_card, hcc, h2]
    simp

/-- Witness for C2: a free-tier user with 5 cards this month is refused
with 403 and nothing changes. -/
theorem tier_limit_enforced_witness :
    create_card demoUserFull { year := 2025, month := 10 } demoForm (fun _ => none)
        "slug1" "card1" [] false [] [] =
      (.limit403 demoUserFull.monthly_card_count (get_monthly_limit demoUserFull),
        demoUserFull, [], []) :=
  (tier_limit_enforced demoUserFull { year := 2025, month := 10 } demoForm (fun _ => none)
    "slug1" "card1" [] false [] []).2.2 (by decide)

/-- Witness for C4 at a concrete user crossing a month boundary. -/
theorem monthly_quota_reset_witness :
    maybe_reset_monthly_count
        { id := "u1", email := "a@example.com", tier := "free",
          email_verified := true, monthly_card_count := 3,
          card_count_reset_at := some { year := 2025, month := 9 } }
        { year := 2025, month := 10 } =
      { id := "u1", email := "a@example.com", tier := "free",
        email_verified := true, monthly_card_count := 0,
        card_count_reset_at := some { year := 2025, month := 10 } } :=
  (monthly_quota_reset _ _).1 (by decide)

end ImageLinkCard
